import Mathlib

/-!
Shallow embedding of the ndn-skeleton backend (Go).

The embedding covers the authentication service (`AuthService` in
`internal/services`), the access-control middleware (`AuthHandler` in
`internal/handlers`), and the movie catalog service and handler
(`MovieService`, `MovieHandler`).

Modelling conventions:
- The relational store is a list of records; `bun` select/insert/update
  statements become list operations on it.
- `bcrypt.GenerateFromPassword` / `bcrypt.CompareHashAndPassword` are
  abstracted as explicit `hash` / `check` function parameters.
- A JWT is modelled symbolically: `Token.signed claims secret method` is a
  well-formed token whose signature was produced with `secret`;
  `Token.malformed raw` is any byte string that does not decode.
  `jwt.ParseWithClaims` verifies the signing method is HMAC, the signature
  (modelled as equality of the signing secret), and the `exp` claim
  (valid while `now < expiresAt`), exactly the checks the golang-jwt v5
  parser performs for `Claims` embedding `jwt.RegisteredClaims`.
- Unix time is an `Int` threaded explicitly (`now`).
- `context.Context` identity stashing is an `Option Int`: `some uid` after
  `ContextWithUserID`, `none` when nothing was attached; the Go type
  assertion in `UserIDFromContext` yields `0` in the absent case.
-/

deriving instance DecidableEq for Except

namespace Ndn

/-! ### String primitives

Go string operations (`strings.Split`, `strconv.Atoi`, case-insensitive
substring match, lexicographic ordering) are implemented structurally over
`String.data` so that everything evaluates inside the kernel. -/

/-- `strings.Split` on a single-character separator, over char lists.
    `Split("", sep) = [""]` and empty fields are kept, as in Go. -/
def splitOnCharAux (c : Char) : List Char → List (List Char)
  | [] => [[]]
  | x :: xs =>
      match splitOnCharAux c xs with
      | [] => [[x]]
      | y :: ys => if x = c then [] :: y :: ys else (x :: y) :: ys

/-- `strings.Split(s, c)` for a one-character separator. -/
def goSplit (c : Char) (s : String) : List String :=
  (splitOnCharAux c s.data).map (fun l => String.mk l)

/-- Digit-string value; `none` if any character is not `0`-`9`.
    (`foldl` starts at `some 0`, so the empty list yields `some 0`;
    `goAtoi` guards emptiness itself.) -/
def digitsToNat (s : List Char) : Option Nat :=
  s.foldl (fun acc c =>
    match acc with
    | none => none
    | some n =>
        if 48 ≤ c.toNat ∧ c.toNat ≤ 57 then some (n * 10 + (c.toNat - 48))
        else none)
    (some 0)

/-- `strconv.Atoi`: optional sign followed by at least one digit. -/
def goAtoi (s : String) : Option Int :=
  match s.data with
  | [] => none
  | c :: rest =>
      if c = '-' then
        if rest.isEmpty then none
        else (digitsToNat rest).map (fun n => -(n : Int))
      else if c = '+' then
        if rest.isEmpty then none
        else (digitsToNat rest).map (fun n => (n : Int))
      else (digitsToNat s.data).map (fun n => (n : Int))

/-- ASCII lower-casing of one character. -/
def charLower (c : Char) : Char :=
  if 65 ≤ c.toNat ∧ c.toNat ≤ 90 then Char.ofNat (c.toNat + 32) else c

/-- Does the second list start with the first? -/
def leadingMatch : List Char → List Char → Bool
  | [], _ => true
  | _ :: _, [] => false
  | x :: xs, y :: ys => x = y && leadingMatch xs ys

/-- Substring test over char lists. -/
def containsChars (needle : List Char) : List Char → Bool
  | [] => needle.isEmpty
  | x :: xs => leadingMatch needle (x :: xs) || containsChars needle xs

/-- `hay ILIKE '%needle%'`: case-insensitive substring containment. -/
def containsCI (hay needle : String) : Bool :=
  containsChars (needle.data.map charLower) (hay.data.map charLower)

/-- Lexicographic `≤` on strings (SQL `ORDER BY ... ASC` on a text
    column), by character code. -/
def lexLE : List Char → List Char → Bool
  | [], _ => true
  | _ :: _, [] => false
  | x :: xs, y :: ys => if x = y then lexLE xs ys else decide (x.toNat < y.toNat)

/-- `models.User` (id, email, password hash, name, admin flag). -/
structure User where
  id : Int
  email : String
  password : String
  name : String
  isAdmin : Bool
  createdAt : Int := 0
deriving DecidableEq

/-- The signing method recorded in a token header; `AuthService.parseToken`
    accepts only the HMAC family. -/
inductive SigningMethod where
  | hmac
  | other (alg : String)
deriving DecidableEq

/-- `services.Claims`: user id, email, admin flag plus the registered
    `exp` and `iat` claims. -/
structure Claims where
  userID : Int
  email : String
  isAdmin : Bool
  expiresAt : Int
  issuedAt : Int
deriving DecidableEq

/-- A JWT string, modelled symbolically (see file header). -/
inductive Token where
  | signed (claims : Claims) (secret : String) (method : SigningMethod)
  | malformed (raw : String)
deriving DecidableEq

/-- `services.AuthService`: the credential store plus the signing secret. -/
structure AuthService where
  users : List User
  jwtSecret : String

/-- Error values of `internal/services` (`ErrInvalidCredentials`,
    `ErrInvalidToken`, `ErrUserNotFound`) plus wrapped internal errors. -/
inductive AuthError where
  | invalidCredentials
  | invalidToken
  | userNotFound
  | internal (msg : String)
deriving DecidableEq

/-- `services.AuthResponse`. -/
structure AuthResponse where
  token : Token
  expiresIn : Int
  userID : Int
  name : String
  email : String
  isAdmin : Bool
deriving DecidableEq

/-- `database.AuthDB.GetUser`: `SELECT ... WHERE id = ?`. -/
def AuthDB.GetUser (users : List User) (id : Int) : Option User :=
  users.find? (fun u => u.id == id)

/-- `database.AuthDB.GetUserByEmail`: `SELECT ... WHERE email = ?`. -/
def AuthDB.GetUserByEmail (users : List User) (email : String) : Option User :=
  users.find? (fun u => u.email == email)

/-- `database.AuthDB.UserExists`: `SELECT EXISTS ... WHERE email = ?`. -/
def AuthDB.UserExists (users : List User) (email : String) : Bool :=
  users.any (fun u => u.email == email)

/-- `database.AuthDB.CreateUser`: the insert respects the store's unique
    constraint on `email` and the autoincrement primary key (the caller
    passes the row, the store rejects a duplicate email). -/
def AuthDB.CreateUser (users : List User) (user : User) : Option (List User) :=
  if users.any (fun u => u.email == user.email) then none
  else some (users ++ [user])

/-- The `autoincrement` primary key: the next id the store assigns. -/
def nextUserID (users : List User) : Int :=
  (users.foldl (fun m u => max m u.id) 0) + 1

/-- 24 hours, in seconds: the token lifetime fixed in
    `AuthService.generateToken`. -/
def tokenTTL : Int := 24 * 3600

/-- `AuthService.generateToken`: claims from the user record, `exp` set to
    `now + 24h`, signed HS256 with the service secret; also returns
    `expiresIn` (seconds until expiry). -/
def AuthService.generateToken (s : AuthService) (now : Int) (user : User) :
    Token × Int :=
  let expirationTime := now + tokenTTL
  let expiresIn := expirationTime - now
  let claims : Claims :=
    { userID := user.id, email := user.email, isAdmin := user.isAdmin,
      expiresAt := expirationTime, issuedAt := now }
  (Token.signed claims s.jwtSecret SigningMethod.hmac, expiresIn)

/-- `AuthService.parseToken`: `jwt.ParseWithClaims` with a keyfunc that
    rejects non-HMAC methods; the parser verifies the signature against the
    service secret and the `exp` registered claim. -/
def AuthService.parseToken (s : AuthService) (now : Int) (token : Token) :
    Option Claims :=
  match token with
  | Token.malformed _ => none
  | Token.signed claims secret method =>
      if method = SigningMethod.hmac ∧ secret = s.jwtSecret ∧
          now < claims.expiresAt then
        some claims
      else
        none

/-- `AuthService.Login`: look up by email (miss ⇒ `ErrInvalidCredentials`),
    verify the password against the stored hash (mismatch ⇒
    `ErrInvalidCredentials`), then issue a token. `check hash password`
    models `bcrypt.CompareHashAndPassword`. -/
def AuthService.Login (check : String → String → Bool) (s : AuthService)
    (now : Int) (email password : String) : Except AuthError AuthResponse :=
  match AuthDB.GetUserByEmail s.users email with
  | none => Except.error AuthError.invalidCredentials
  | some user =>
      if check user.password password then
        let issued := s.generateToken now user
        Except.ok { token := issued.1, expiresIn := issued.2,
                    userID := user.id, name := user.name,
                    email := user.email, isAdmin := user.isAdmin }
      else
        Except.error AuthError.invalidCredentials

/-- `AuthService.Register`: hash the password, persist the user with
    `admin = false` (id assigned by the store), then issue a token.
    `hash` models `bcrypt.GenerateFromPassword`. -/
def AuthService.Register (hash : String → String) (s : AuthService)
    (now : Int) (email password name : String) :
    AuthService × Except AuthError AuthResponse :=
  let hashedPassword := hash password
  let user : User :=
    { id := nextUserID s.users, email := email, password := hashedPassword,
      name := name, isAdmin := false, createdAt := now }
  match AuthDB.CreateUser s.users user with
  | none => (s, Except.error (AuthError.internal "failed to create user"))
  | some users2 =>
      let s2 : AuthService := { s with users := users2 }
      let issued := s2.generateToken now user
      (s2, Except.ok { token := issued.1, expiresIn := issued.2,
                       userID := user.id, name := user.name,
                       email := user.email, isAdmin := user.isAdmin })

/-- `AuthService.ValidateToken`: parse failure ⇒ `ErrInvalidToken`,
    otherwise the embedded user id. Reads no store state. -/
def AuthService.ValidateToken (s : AuthService) (now : Int) (token : Token) :
    Except AuthError Int :=
  match s.parseToken now token with
  | none => Except.error AuthError.invalidToken
  | some claims => Except.ok claims.userID

/-- `AuthService.RefreshToken`: parse failure ⇒ `ErrInvalidToken`; user id
    from the claims not in the store ⇒ `ErrUserNotFound`; otherwise a fresh
    token generated from the current persisted record. -/
def AuthService.RefreshToken (s : AuthService) (now : Int) (token : Token) :
    Except AuthError AuthResponse :=
  match s.parseToken now token with
  | none => Except.error AuthError.invalidToken
  | some claims =>
      match AuthDB.GetUser s.users claims.userID with
      | none => Except.error AuthError.userNotFound
      | some user =>
          let issued := s.generateToken now user
          Except.ok { token := issued.1, expiresIn := issued.2,
                      userID := user.id, name := user.name,
                      email := user.email, isAdmin := user.isAdmin }

/-- `AuthService.IsAdmin`: propagate the store lookup failure, otherwise
    the persisted admin flag. -/
def AuthService.IsAdmin (s : AuthService) (userID : Int) :
    Except AuthError Bool :=
  match AuthDB.GetUser s.users userID with
  | none => Except.error AuthError.userNotFound
  | some user => Except.ok user.isAdmin

/-- `services.ContextWithUserID`: store the id under the context key
    (overwriting whatever the context held). -/
def ContextWithUserID (_ctx : Option Int) (userID : Int) : Option Int :=
  some userID

/-- `services.UserIDFromContext`: the Go type assertion yields `0` when the
    key is absent. -/
def UserIDFromContext (ctx : Option Int) : Int :=
  ctx.getD 0

/-- Outcome of a middleware stage: either an HTTP response was written
    (`sendError` with status and message) or the next handler was invoked
    with the given request context. -/
inductive MwResult where
  | respond (status : Int) (message : String)
  | proceed (ctx : Option Int)
deriving DecidableEq

/-- `AuthHandler.extractToken`: split the `Authorization` header on spaces;
    anything other than exactly `Bearer <token>` yields the empty string. -/
def AuthHandler.extractToken (header : String) : String :=
  if header = "" then ""
  else
    match goSplit ' ' header with
    | [scheme, tok] => if scheme = "Bearer" then tok else ""
    | _ => ""

/-- `AuthHandler.AuthMiddleware`, parameterised by the token-validation
    function it calls (`authService.ValidateToken` composed with JWT
    decoding in the real wiring). -/
def AuthHandler.AuthMiddleware (validate : String → Except AuthError Int)
    (header : String) (ctx : Option Int) : MwResult :=
  let token := AuthHandler.extractToken header
  if token = "" then MwResult.respond 401 "Missing authorization header"
  else
    match validate token with
    | Except.error e =>
        if e = AuthError.invalidToken then
          MwResult.respond 401 "Invalid or expired token"
        else
          MwResult.respond 500 "Internal server error"
    | Except.ok userID => MwResult.proceed (ContextWithUserID ctx userID)

/-- The authentication stage wired to the auth service: `decode` maps the
    raw header token string to the symbolic token it denotes. -/
def AuthHandler.AuthMiddlewareSvc (decode : String → Token) (s : AuthService)
    (now : Int) (header : String) (ctx : Option Int) : MwResult :=
  AuthHandler.AuthMiddleware (fun raw => s.ValidateToken now (decode raw))
    header ctx

/-- `AuthHandler.AdminMiddleware`: read the context user id (sentinel `0`
    when absent) and gate on `IsAdmin`. -/
def AuthHandler.AdminMiddleware (s : AuthService) (ctx : Option Int) :
    MwResult :=
  let userID := UserIDFromContext ctx
  if userID = 0 then MwResult.respond 401 "Unauthorized"
  else
    match s.IsAdmin userID with
    | Except.error _ => MwResult.respond 500 "Internal server error"
    | Except.ok false => MwResult.respond 403 "Admin access required"
    | Except.ok true => MwResult.proceed ctx

/-! ### Movie catalog -/

/-- `models.Movie`. `rating` is `float64` in Go; it is modelled as `ℚ`
    (no claim depends on floating-point rounding). -/
structure Movie where
  id : Int
  title : String
  description : String
  releaseYear : Int
  duration : Int
  posterURL : String
  videoURL : String
  categories : List String
  rating : Rat := 0
  createdAt : Int := 0
deriving DecidableEq

/-- `models.MovieCategory`: the `movie_categories` join row. -/
structure MovieCategory where
  movieID : Int
  categoryID : Int
deriving DecidableEq

/-- `models.UserFavorite`: the `user_favorites` join row. -/
structure UserFavorite where
  userID : Int
  movieID : Int
deriving DecidableEq

/-- The tables `MovieService` touches. -/
structure Catalog where
  movies : List Movie
  movieCategories : List MovieCategory := []
  userFavorites : List UserFavorite := []
deriving DecidableEq

/-- `services.MovieFilter`. Unset numeric fields are the Go zero value. -/
structure MovieFilter where
  categoryID : Option Int := none
  search : String := ""
  sortBy : String := ""
  categories : List String := []
  year : Option Int := none
  page : Int := 0
  pageSize : Int := 0
deriving DecidableEq

/-- The WHERE clauses `MovieService.GetMovies` builds, conjoined:
    search ⇒ `title ILIKE '%s%' OR description ILIKE '%s%'`;
    categoryID ⇒ join against `movie_categories`;
    categories ⇒ array overlap `categories && ?`;
    year ⇒ `release_year = ?`. -/
def movieMatches (assocs : List MovieCategory) (f : MovieFilter)
    (m : Movie) : Bool :=
  (if f.search = "" then true
   else containsCI m.title f.search || containsCI m.description f.search)
  && (match f.categoryID with
      | none => true
      | some cid => assocs.any (fun a => a.movieID == m.id && a.categoryID == cid))
  && (if f.categories.isEmpty then true
      else m.categories.any (fun c => f.categories.contains c))
  && (match f.year with
      | none => true
      | some y => m.releaseYear == y)

/-- Insert into a `le`-sorted list (model of the store's `ORDER BY`). -/
def insertLE (le : Movie → Movie → Bool) (m : Movie) :
    List Movie → List Movie
  | [] => [m]
  | x :: xs => if le m x then m :: x :: xs else x :: insertLE le m xs

/-- Sort by insertion (model of the store's `ORDER BY`). -/
def orderBy (le : Movie → Movie → Bool) (l : List Movie) : List Movie :=
  l.foldr (insertLE le) []

/-- The `switch filter.SortBy` ordering of `MovieService.GetMovies`:
    exact, case-sensitive keys; anything else falls back to
    `created_at DESC`. -/
def movieLE (key : String) (a b : Movie) : Bool :=
  match key with
  | "title_asc" => lexLE a.title.data b.title.data
  | "title_desc" => lexLE b.title.data a.title.data
  | "year_asc" => decide (a.releaseYear ≤ b.releaseYear)
  | "year_desc" => decide (b.releaseYear ≤ a.releaseYear)
  | "rating_desc" => decide (b.rating ≤ a.rating)
  | _ => decide (b.createdAt ≤ a.createdAt)

/-- The page defaulting `MovieService.GetMovies` performs on its own copy
    of the filter: `if filter.Page <= 0 { filter.Page = 1 }`. -/
def effectivePage (f : MovieFilter) : Int :=
  if f.page ≤ 0 then 1 else f.page

/-- `if filter.PageSize <= 0 { filter.PageSize = 20 }`. -/
def effectivePageSize (f : MovieFilter) : Int :=
  if f.pageSize ≤ 0 then 20 else f.pageSize

/-- `MovieService.GetMovies`: filter, count the filtered set, clamp
    page/page size, sort, then `LIMIT pageSize OFFSET (page-1)*pageSize`.
    Returns the page of movies and the pre-pagination total. -/
def MovieService.GetMovies (cat : Catalog) (f : MovieFilter) :
    List Movie × Int :=
  let filtered := cat.movies.filter (movieMatches cat.movieCategories f)
  let total : Int := filtered.length
  let page := effectivePage f
  let pageSize := effectivePageSize f
  let offset := (page - 1) * pageSize
  let sorted := orderBy (movieLE f.sortBy) filtered
  ((sorted.drop offset.toNat).take pageSize.toNat, total)

/-- `MovieService.CreateMovie`: reject a duplicate title
    (`WHERE title = ?` exists-check), otherwise insert. -/
def MovieService.CreateMovie (cat : Catalog) (movie : Movie) :
    Except String Catalog :=
  if cat.movies.any (fun m => m.title == movie.title) then
    Except.error "movie already exists"
  else
    Except.ok { cat with movies := cat.movies ++ [movie] }

/-- `bun`'s `OmitZero` update: a Go-zero-valued field of the incoming row
    is left out of the `UPDATE`, keeping the stored value. -/
def omitZeroMerge (old upd : Movie) : Movie :=
  { id := old.id,
    title := if upd.title = "" then old.title else upd.title,
    description := if upd.description = "" then old.description
                   else upd.description,
    releaseYear := if upd.releaseYear = 0 then old.releaseYear
                   else upd.releaseYear,
    duration := if upd.duration = 0 then old.duration else upd.duration,
    posterURL := if upd.posterURL = "" then old.posterURL else upd.posterURL,
    videoURL := if upd.videoURL = "" then old.videoURL else upd.videoURL,
    categories := if upd.categories.isEmpty then old.categories
                  else upd.categories,
    rating := if upd.rating = 0 then old.rating else upd.rating,
    createdAt := if upd.createdAt = 0 then old.createdAt else upd.createdAt }

/-- `MovieService.UpdateMovie`: reject when a different row holds the title
    (`WHERE title = ? AND id != ?` exists-check), otherwise update the row
    with the movie's primary key, omitting zero fields. -/
def MovieService.UpdateMovie (cat : Catalog) (movie : Movie) :
    Except String Catalog :=
  if cat.movies.any (fun m => m.title == movie.title && m.id != movie.id) then
    Except.error "movie title already taken"
  else
    let updated := cat.movies.map (fun m =>
      if m.id == movie.id then omitZeroMerge m movie else m)
    Except.ok { cat with movies := updated }

/-- The query-string inputs `MovieHandler.GetMovies` reads
    (`r.URL.Query().Get(...)` yields `""` for an absent parameter). -/
structure MovieQuery where
  search : String := ""
  sortBy : String := ""
  categories : List String := []
  year : String := ""
  page : String := ""
  pageSize : String := ""
deriving DecidableEq

/-- The filter `MovieHandler.GetMovies` builds: `page`/`page_size` are set
    from the query only when present, numeric and positive; an absent
    parameter defaults (1 resp. 10); a present but non-numeric or
    non-positive one leaves the zero value in place. -/
def MovieHandler.buildFilter (q : MovieQuery) : MovieFilter :=
  let year : Option Int :=
    if q.year ≠ "" then
      match goAtoi q.year with
      | some y => some y
      | none => none
    else none
  let page : Int :=
    if q.page ≠ "" then
      match goAtoi q.page with
      | some p => if p > 0 then p else 0
      | none => 0
    else 1
  let pageSize : Int :=
    if q.pageSize ≠ "" then
      match goAtoi q.pageSize with
      | some p => if p > 0 then p else 0
      | none => 0
    else 10
  { search := q.search, sortBy := q.sortBy, categories := q.categories,
    year := year, page := page, pageSize := pageSize }

/-- `handlers.PaginatedMovieResponse`. -/
structure PaginatedMovieResponse where
  movies : List Movie
  total : Int
  page : Int
deriving DecidableEq

/-- `MovieHandler.GetMovies`: build the filter, call the service, and
    report `filter.Page` (the handler's own copy — the service clamps a
    value copy, not this one) in the response. -/
def MovieHandler.GetMovies (cat : Catalog) (q : MovieQuery) :
    PaginatedMovieResponse :=
  let f := MovieHandler.buildFilter q
  let result := MovieService.GetMovies cat f
  { movies := result.1, total := result.2, page := f.page }

/-- An (email, password) pair authenticates against the store: the email
    resolves to a user whose stored hash matches the password. -/
def authenticates (check : String → String → Bool) (users : List User)
    (email password : String) : Bool :=
  match AuthDB.GetUserByEmail users email with
  | none => false
  | some user => check user.password password

/-- The filtered set `MovieService.GetMovies` counts and then paginates. -/
def filteredMovies (cat : Catalog) (f : MovieFilter) : List Movie :=
  cat.movies.filter (movieMatches cat.movieCategories f)

/-! ### Supporting lemmas -/

theorem length_insertLE (le : Movie → Movie → Bool) (m : Movie)
    (l : List Movie) : (insertLE le m l).length = l.length + 1 := by
  induction l with
  | nil => rfl
  | cons x xs ih =>
      unfold insertLE
      by_cases h : le m x
      · simp [h]
      · simp [h, ih]

theorem length_orderBy (le : Movie → Movie → Bool) (l : List Movie) :
    (orderBy le l).length = l.length := by
  induction l with
  | nil => rfl
  | cons x xs ih =>
      show (insertLE le x (orderBy le xs)).length = xs.length + 1
      rw [length_insertLE, ih]

/-- With ceiling division written `(N + P - 1) / P`: page `p` (1-based)
    has an in-range offset iff `p` is at most the page count. -/
theorem page_le_ceil_iff (N P p : Nat) (hP : 0 < P) (hp : 0 < p) :
    p ≤ (N + P - 1) / P ↔ (p - 1) * P < N := by
  rw [Nat.le_div_iff_mul_le hP]
  have h1 : (p - 1) * P + P = p * P := by
    cases p with
    | zero => omega
    | succ k => simp [Nat.succ_mul]
  generalize (p - 1) * P = A at h1 ⊢
  generalize p * P = B at h1 ⊢
  omega

/-- Size of the slice a 1-based page `p` holds when `p` is exactly the
    last page: `N mod P`, or a full `P` when `P` divides `N`. -/
theorem lastPageLen (N P p : Nat) (hP : 0 < P) (hp0 : 0 < p)
    (hlo : (p - 1) * P < N) (hhi : N ≤ p * P) :
    min P (N - (p - 1) * P) = if N % P = 0 then P else N % P := by
  have h1 : (p - 1) * P + P = p * P := by
    cases p with
    | zero => omega
    | succ k => simp [Nat.succ_mul]
  rcases Nat.eq_zero_or_pos (N % P) with hr | hr
  · obtain ⟨q, hq⟩ := Nat.dvd_of_mod_eq_zero hr
    have hlt : p - 1 < q := by
      have := hlo
      rw [hq, Nat.mul_comm P q] at this
      exact lt_of_mul_lt_mul_right this (Nat.zero_le P)
    have hle : q ≤ p := by
      have := hhi
      rw [hq, Nat.mul_comm P q] at this
      exact le_of_mul_le_mul_right this hP
    have hqp : q = p := by omega
    rw [if_pos hr]
    subst hqp
    rw [hq, Nat.mul_comm P q]
    generalize hA : (q - 1) * P = A at h1
    generalize hB : q * P = B at h1
    omega
  · have hq := Nat.div_add_mod N P
    have hrP : N % P < P := Nat.mod_lt _ hP
    have hlt : N / P < p := by
      have h2 : (N / P) * P < p * P := by
        rw [Nat.mul_comm (N / P) P]
        omega
      exact lt_of_mul_lt_mul_right h2 (Nat.zero_le P)
    have hle : p - 1 < N / P + 1 := by
      have h2 : (p - 1) * P < (N / P + 1) * P := by
        rw [Nat.succ_mul, Nat.mul_comm (N / P) P]
        omega
      exact lt_of_mul_lt_mul_right h2 (Nat.zero_le P)
    have hpq : p = N / P + 1 := by omega
    rw [if_neg (by omega)]
    subst hpq
    simp only [Nat.add_sub_cancel]
    rw [Nat.mul_comm (N / P) P]
    omega

/-- A header the claim calls malformed extracts to the empty token. -/
theorem extractToken_malformed (header : String)
    (h : header = "" ∨ (goSplit ' ' header).length ≠ 2 ∨
        (goSplit ' ' header).head? ≠ some "Bearer") :
    AuthHandler.extractToken header = "" := by
  by_cases hh : header = ""
  · simp [AuthHandler.extractToken, hh]
  · have h2 : (goSplit ' ' header).length ≠ 2 ∨
        (goSplit ' ' header).head? ≠ some "Bearer" := by
      rcases h with h | h | h
      · exact absurd h hh
      · exact Or.inl h
      · exact Or.inr h
    unfold AuthHandler.extractToken
    rw [if_neg hh]
    cases hsplit : goSplit ' ' header with
    | nil => rfl
    | cons a t =>
        cases t with
        | nil => rfl
        | cons b t2 =>
            cases t2 with
            | nil =>
                rw [hsplit] at h2
                rcases h2 with h2 | h2
                · simp at h2
                · have hne : a ≠ "Bearer" := by simpa using h2
                  simp [hne]
            | cons c t3 => rfl

/-! ### Claims -/

/-- Claim C1: for every stored set of users and every (email, password)
    pair that does not authenticate, `Login` fails with the very same
    `ErrInvalidCredentials` value whether the email is not registered or
    the email is registered but the stored hash does not match the
    password — the two failure causes are indistinguishable to the
    caller. -/
theorem C1_login_failure_indistinguishable
    (check : String → String → Bool) (s : AuthService) (now : Int)
    (email password : String)
    (hfail : authenticates check s.users email password = false) :
    AuthService.Login check s now email password =
      Except.error AuthError.invalidCredentials := by
  unfold authenticates at hfail
  unfold AuthService.Login
  cases hfind : AuthDB.GetUserByEmail s.users email with
  | none => rfl
  | some user =>
      rw [hfind] at hfail
      have hfail2 : check user.password password = false := hfail
      simp [hfail2]

theorem C1_login_failure_indistinguishable_witness :
    AuthService.Login (fun h p => h == "h:" ++ p)
        { users := [{ id := 1, email := "a@b.c", password := "h:pw1",
                      name := "A", isAdmin := false }], jwtSecret := "sec" }
        0 "a@b.c" "wrong" = Except.error AuthError.invalidCredentials
    ∧ AuthService.Login (fun h p => h == "h:" ++ p)
        { users := [{ id := 1, email := "a@b.c", password := "h:pw1",
                      name := "A", isAdmin := false }], jwtSecret := "sec" }
        0 "x@b.c" "pw1" = Except.error AuthError.invalidCredentials :=
  ⟨C1_login_failure_indistinguishable _ _ _ _ _ (by decide),
   C1_login_failure_indistinguishable _ _ _ _ _ (by decide)⟩

/-- Claim C5, counterexample: the claim says that whenever a user id was
    attached to the context, a failing `IsAdmin` lookup yields
    `InternalError` (500). But `UserIDFromContext` conflates an attached
    id `0` with absence: with `some 0` attached (which the authentication
    stage does attach for any correctly signed token whose `user_id` claim
    is `0`) and a store where the lookup fails, `AdminMiddleware` returns
    401 `Unauthorized`, not 500. -/
theorem C5_admin_middleware_counterexample :
    (some 0 : Option Int) ≠ none
    ∧ AuthService.IsAdmin { users := [], jwtSecret := "sec" }
        (UserIDFromContext (some 0)) = Except.error AuthError.userNotFound
    ∧ AuthHandler.AdminMiddleware { users := [], jwtSecret := "sec" }
        (some 0) = MwResult.respond 401 "Unauthorized"
    ∧ AuthHandler.AdminMiddleware { users := [], jwtSecret := "sec" }
        (some 0) ≠ MwResult.respond 500 "Internal server error" := by
  refine ⟨by decide, by decide, by decide, by decide⟩

/-- Claim C5, amended: the admin-authorization stage reads the context
    user id through the sentinel `0` (absence and an attached `0` are
    indistinguishable). If that id is `0` it returns `Unauthorized`;
    otherwise a failing `IsAdmin` lookup yields `InternalError`, a false
    persisted admin flag yields `Forbidden`, and a true flag passes the
    request through unchanged. -/
theorem C5_admin_middleware_amended (s : AuthService) (ctx : Option Int) :
    (UserIDFromContext ctx = 0 →
      AuthHandler.AdminMiddleware s ctx = MwResult.respond 401 "Unauthorized")
    ∧ (∀ e, UserIDFromContext ctx ≠ 0 →
        s.IsAdmin (UserIDFromContext ctx) = Except.error e →
        AuthHandler.AdminMiddleware s ctx =
          MwResult.respond 500 "Internal server error")
    ∧ (UserIDFromContext ctx ≠ 0 →
        s.IsAdmin (UserIDFromContext ctx) = Except.ok false →
        AuthHandler.AdminMiddleware s ctx =
          MwResult.respond 403 "Admin access required")
    ∧ (UserIDFromContext ctx ≠ 0 →
        s.IsAdmin (UserIDFromContext ctx) = Except.ok true →
        AuthHandler.AdminMiddleware s ctx = MwResult.proceed ctx) := by
  refine ⟨?_, ?_, ?_, ?_⟩
  · intro h0
    simp [AuthHandler.AdminMiddleware, h0]
  · intro e h0 hlook
    simp [AuthHandler.AdminMiddleware, h0, hlook]
  · intro h0 hlook
    simp [AuthHandler.AdminMiddleware, h0, hlook]
  · intro h0 hlook
    simp [AuthHandler.AdminMiddleware, h0, hlook]

theorem C5_admin_middleware_amended_witness :
    AuthHandler.AdminMiddleware
        { users := [{ id := 1, email := "a@b.c", password := "h",
                      name := "A", isAdmin := true }], jwtSecret := "sec" }
        none = MwResult.respond 401 "Unauthorized"
    ∧ AuthHandler.AdminMiddleware
        { users := [], jwtSecret := "sec" } (some 7) =
        MwResult.respond 500 "Internal server error"
    ∧ AuthHandler.AdminMiddleware
        { users := [{ id := 2, email := "b@b.c", password := "h",
                      name := "B", isAdmin := false }], jwtSecret := "sec" }
        (some 2) = MwResult.respond 403 "Admin access required"
    ∧ AuthHandler.AdminMiddleware
        { users := [{ id := 1, email := "a@b.c", password := "h",
                      name := "A", isAdmin := true }], jwtSecret := "sec" }
        (some 1) = MwResult.proceed (some 1) :=
  ⟨(C5_admin_middleware_amended _ _).1 (by decide),
   (C5_admin_middleware_amended _ _).2.1 AuthError.userNotFound (by decide)
     (by decide),
   (C5_admin_middleware_amended _ _).2.2.1 (by decide) (by decide),
   (C5_admin_middleware_amended _ _).2.2.2 (by decide) (by decide)⟩

/-- Claim C6: the authentication stage returns `Unauthorized` on a
    missing/malformed authorization header (missing, not exactly two
    space-separated parts, or scheme not exactly `Bearer`) — and does so
    for every token-validation function, i.e. without consulting
    `ValidateToken`; when the validator rejects the extracted token it
    returns `Unauthorized`; on success it attaches the resolved user id to
    the request context and proceeds. The hypothesis `hempty` records that
    the real validator rejects the empty token string (the JWT parser
    cannot decode it). -/
theorem C6_auth_middleware (validate : String → Except AuthError Int)
    (header : String) (ctx : Option Int)
    (hempty : validate "" = Except.error AuthError.invalidToken) :
    ((header = "" ∨ (goSplit ' ' header).length ≠ 2 ∨
        (goSplit ' ' header).head? ≠ some "Bearer") →
      ∀ validate2 : String → Except AuthError Int,
        AuthHandler.AuthMiddleware validate2 header ctx =
          MwResult.respond 401 "Missing authorization header")
    ∧ (validate (AuthHandler.extractToken header) =
          Except.error AuthError.invalidToken →
        ∃ msg, AuthHandler.AuthMiddleware validate header ctx =
          MwResult.respond 401 msg)
    ∧ (∀ userID, validate (AuthHandler.extractToken header) =
          Except.ok userID →
        AuthHandler.AuthMiddleware validate header ctx =
          MwResult.proceed (some userID)) := by
  refine ⟨?_, ?_, ?_⟩
  · intro hmal validate2
    have he := extractToken_malformed header hmal
    simp [AuthHandler.AuthMiddleware, he]
  · intro hrej
    by_cases htok : AuthHandler.extractToken header = ""
    · exact ⟨"Missing authorization header",
        by simp [AuthHandler.AuthMiddleware, htok]⟩
    · exact ⟨"Invalid or expired token",
        by simp [AuthHandler.AuthMiddleware, htok, hrej]⟩
  · intro userID hok
    have htok : AuthHandler.extractToken header ≠ "" := by
      intro he
      rw [he, hempty] at hok
      cases hok
    simp [AuthHandler.AuthMiddleware, htok, hok, ContextWithUserID]

theorem C6_auth_middleware_witness :
    AuthHandler.AuthMiddleware
        (fun t => if t = "tok" then Except.ok 7
                  else Except.error AuthError.invalidToken)
        "Basic abc" none = MwResult.respond 401 "Missing authorization header"
    ∧ (∃ msg, AuthHandler.AuthMiddleware
        (fun t => if t = "tok" then Except.ok 7
                  else Except.error AuthError.invalidToken)
        "Bearer bad" none = MwResult.respond 401 msg)
    ∧ AuthHandler.AuthMiddleware
        (fun t => if t = "tok" then Except.ok 7
                  else Except.error AuthError.invalidToken)
        "Bearer tok" none = MwResult.proceed (some 7) :=
  ⟨(C6_auth_middleware
      (fun t => if t = "tok" then Except.ok 7
                else Except.error AuthError.invalidToken)
      "Basic abc" none (by decide)).1 (Or.inr (Or.inr (by decide))) _,
   (C6_auth_middleware
      (fun t => if t = "tok" then Except.ok 7
                else Except.error AuthError.invalidToken)
      "Bearer bad" none (by decide)).2.1 (by decide),
   (C6_auth_middleware
      (fun t => if t = "tok" then Except.ok 7
                else Except.error AuthError.invalidToken)
      "Bearer tok" none (by decide)).2.2 7 (by decide)⟩

/-- Claim C3: a token issued by `Register` or `Login` is accepted by
    `ValidateToken` (run with the same service, hence the same signing
    secret) and yields the originating user's id, as long as the current
    time is before the token's expiry (`issue time + 24h`); once the
    expiry is in the past, `ValidateToken` fails with `ErrInvalidToken`. -/
theorem C3_issued_token_validates (s : AuthService) (tIssue now : Int)
    (r : AuthResponse)
    (hissued :
      (∃ check email password,
        AuthService.Login check s tIssue email password = Except.ok r)
      ∨ (∃ hash email password name s2,
        AuthService.Register hash s tIssue email password name =
          (s2, Except.ok r))) :
    (now < tIssue + tokenTTL →
      AuthService.ValidateToken s now r.token = Except.ok r.userID)
    ∧ (tIssue + tokenTTL < now →
      AuthService.ValidateToken s now r.token =
        Except.error AuthError.invalidToken) := by
  have hshape : ∃ uid em adm,
      r.token = Token.signed
        { userID := uid, email := em, isAdmin := adm,
          expiresAt := tIssue + tokenTTL, issuedAt := tIssue }
        s.jwtSecret SigningMethod.hmac
      ∧ r.userID = uid := by
    rcases hissued with ⟨check, email, password, hlog⟩ |
        ⟨hash, email, password, name, s2, hreg⟩
    · unfold AuthService.Login at hlog
      split at hlog
      · simp at hlog
      · rename_i user hfind
        split at hlog
        · dsimp only at hlog
          injection hlog with hr
          exact ⟨user.id, user.email, user.isAdmin,
            by rw [← hr]; rfl, by rw [← hr]⟩
        · simp at hlog
    · unfold AuthService.Register at hreg
      dsimp only at hreg
      split at hreg
      · have h2 := congrArg Prod.snd hreg
        simp at h2
      · rename_i users2 hcreate
        have h2 := congrArg Prod.snd hreg
        dsimp only at h2
        injection h2 with hr
        exact ⟨nextUserID s.users, email, false,
          by rw [← hr]; rfl, by rw [← hr]⟩
  obtain ⟨uid, em, adm, htok, huid⟩ := hshape
  constructor
  · intro hlt
    simp [AuthService.ValidateToken, AuthService.parseToken, htok, huid, hlt]
  · intro hgt
    have hnlt : ¬ now < tIssue + tokenTTL := by omega
    simp [AuthService.ValidateToken, AuthService.parseToken, htok, hnlt]

theorem C3_issued_token_validates_witness :
    AuthService.ValidateToken
        { users := [{ id := 1, email := "a@b.c", password := "h:pw1",
                      name := "A", isAdmin := false }], jwtSecret := "sec" }
        100
        (Token.signed
          { userID := 1, email := "a@b.c", isAdmin := false,
            expiresAt := 86400, issuedAt := 0 } "sec" SigningMethod.hmac) =
      Except.ok 1
    ∧ AuthService.ValidateToken
        { users := [{ id := 1, email := "a@b.c", password := "h:pw1",
                      name := "A", isAdmin := false }], jwtSecret := "sec" }
        100000
        (Token.signed
          { userID := 1, email := "a@b.c", isAdmin := false,
            expiresAt := 86400, issuedAt := 0 } "sec" SigningMethod.hmac) =
      Except.error AuthError.invalidToken :=
  ⟨(C3_issued_token_validates
      { users := [{ id := 1, email := "a@b.c", password := "h:pw1",
                    name := "A", isAdmin := false }], jwtSecret := "sec" }
      0 100
      { token := Token.signed
          { userID := 1, email := "a@b.c", isAdmin := false,
            expiresAt := 86400, issuedAt := 0 } "sec" SigningMethod.hmac,
        expiresIn := 86400, userID := 1, name := "A", email := "a@b.c",
        isAdmin := false }
      (Or.inl ⟨fun h p => h == "h:" ++ p, "a@b.c", "pw1", by decide⟩)).1
    (by decide),
   (C3_issued_token_validates
      { users := [{ id := 1, email := "a@b.c", password := "h:pw1",
                    name := "A", isAdmin := false }], jwtSecret := "sec" }
      0 100000
      { token := Token.signed
          { userID := 1, email := "a@b.c", isAdmin := false,
            expiresAt := 86400, issuedAt := 0 } "sec" SigningMethod.hmac,
        expiresIn := 86400, userID := 1, name := "A", email := "a@b.c",
        isAdmin := false }
      (Or.inl ⟨fun h p => h == "h:" ++ p, "a@b.c", "pw1", by decide⟩)).2
    (by decide)⟩

/-- Claim C4: `RefreshToken` fails with `ErrInvalidToken` when the token
    codec rejects the token; otherwise fails with `ErrUserNotFound` when
    the user id in the token's claims has no record in the store;
    otherwise returns a new token whose expiry is 24 hours from the
    current time and whose claims (email, admin flag, and the name in the
    response) are taken from the user's current persisted record — so a
    promotion to admin after the original token was issued is reflected in
    the refreshed token. -/
theorem C4_refresh_token (s : AuthService) (now : Int) (token : Token) :
    (s.parseToken now token = none →
      s.RefreshToken now token = Except.error AuthError.invalidToken)
    ∧ (∀ claims, s.parseToken now token = some claims →
        AuthDB.GetUser s.users claims.userID = none →
        s.RefreshToken now token = Except.error AuthError.userNotFound)
    ∧ (∀ claims user, s.parseToken now token = some claims →
        AuthDB.GetUser s.users claims.userID = some user →
        s.RefreshToken now token = Except.ok
          { token := Token.signed
              { userID := user.id, email := user.email,
                isAdmin := user.isAdmin, expiresAt := now + tokenTTL,
                issuedAt := now } s.jwtSecret SigningMethod.hmac,
            expiresIn := tokenTTL, userID := user.id, name := user.name,
            email := user.email, isAdmin := user.isAdmin }) := by
  refine ⟨?_, ?_, ?_⟩
  · intro hparse
    simp [AuthService.RefreshToken, hparse]
  · intro claims hparse hmiss
    simp [AuthService.RefreshToken, hparse, hmiss]
  · intro claims user hparse hfind
    simp only [AuthService.RefreshToken, hparse, hfind,
      AuthService.generateToken]
    simp

theorem C4_refresh_token_witness :
    AuthService.RefreshToken
        { users := [{ id := 1, email := "a@b.c", password := "h",
                      name := "A", isAdmin := true }], jwtSecret := "sec" }
        2000
        (Token.signed
          { userID := 1, email := "a@b.c", isAdmin := false,
            expiresAt := 1000, issuedAt := 0 } "sec" SigningMethod.hmac) =
      Except.error AuthError.invalidToken
    ∧ AuthService.RefreshToken
        { users := [{ id := 1, email := "a@b.c", password := "h",
                      name := "A", isAdmin := true }], jwtSecret := "sec" }
        500
        (Token.signed
          { userID := 9, email := "x@b.c", isAdmin := false,
            expiresAt := 1000, issuedAt := 0 } "sec" SigningMethod.hmac) =
      Except.error AuthError.userNotFound
    ∧ AuthService.RefreshToken
        { users := [{ id := 1, email := "a@b.c", password := "h",
                      name := "A", isAdmin := true }], jwtSecret := "sec" }
        500
        (Token.signed
          { userID := 1, email := "a@b.c", isAdmin := false,
            expiresAt := 1000, issuedAt := 0 } "sec" SigningMethod.hmac) =
      Except.ok
        { token := Token.signed
            { userID := 1, email := "a@b.c", isAdmin := true,
              expiresAt := 86900, issuedAt := 500 } "sec"
            SigningMethod.hmac,
          expiresIn := 86400, userID := 1, name := "A", email := "a@b.c",
          isAdmin := true } :=
  ⟨(C4_refresh_token
      { users := [{ id := 1, email := "a@b.c", password := "h",
                    name := "A", isAdmin := true }], jwtSecret := "sec" }
      2000
      (Token.signed
        { userID := 1, email := "a@b.c", isAdmin := false,
          expiresAt := 1000, issuedAt := 0 } "sec"
        SigningMethod.hmac)).1 (by decide),
   (C4_refresh_token
      { users := [{ id := 1, email := "a@b.c", password := "h",
                    name := "A", isAdmin := true }], jwtSecret := "sec" }
      500
      (Token.signed
        { userID := 9, email := "x@b.c", isAdmin := false,
          expiresAt := 1000, issuedAt := 0 } "sec"
        SigningMethod.hmac)).2.1
      { userID := 9, email := "x@b.c", isAdmin := false,
        expiresAt := 1000, issuedAt := 0 } (by decide) (by decide),
   (C4_refresh_token
      { users := [{ id := 1, email := "a@b.c", password := "h",
                    name := "A", isAdmin := true }], jwtSecret := "sec" }
      500
      (Token.signed
        { userID := 1, email := "a@b.c", isAdmin := false,
          expiresAt := 1000, issuedAt := 0 } "sec"
        SigningMethod.hmac)).2.2
      { userID := 1, email := "a@b.c", isAdmin := false,
        expiresAt := 1000, issuedAt := 0 }
      { id := 1, email := "a@b.c", password := "h", name := "A",
        isAdmin := true, createdAt := 0 } (by decide) (by decide)⟩

/-- Claim C9: `ValidateToken` reads only the token, the signing secret and
    the clock — never the credential store. Two services with the same
    secret but arbitrarily different stores produce identical
    `ValidateToken` outcomes and identical authentication-stage outcomes;
    in particular an unexpired, correctly signed token is accepted and its
    embedded user id attached to the context even when that user id has no
    record in the store (e.g. the user was deleted). -/
theorem C9_validate_ignores_store (users1 users2 : List User)
    (secret : String) (now : Int) :
    (∀ token,
      AuthService.ValidateToken { users := users1, jwtSecret := secret }
          now token =
        AuthService.ValidateToken { users := users2, jwtSecret := secret }
          now token)
    ∧ (∀ decode header ctx,
        AuthHandler.AuthMiddlewareSvc decode
            { users := users1, jwtSecret := secret } now header ctx =
          AuthHandler.AuthMiddlewareSvc decode
            { users := users2, jwtSecret := secret } now header ctx)
    ∧ (∀ claims raw decode header ctx,
        AuthHandler.extractToken header = raw → raw ≠ "" →
        decode raw = Token.signed claims secret SigningMethod.hmac →
        now < claims.expiresAt →
        AuthDB.GetUser users1 claims.userID = none →
        AuthHandler.AuthMiddlewareSvc decode
            { users := users1, jwtSecret := secret } now header ctx =
          MwResult.proceed (some claims.userID)) := by
  refine ⟨fun token => rfl, fun decode header ctx => rfl, ?_⟩
  intro claims raw decode header ctx hext hraw hdec hexp hgone
  simp only [AuthHandler.AuthMiddlewareSvc, AuthHandler.AuthMiddleware, hext]
  rw [if_neg hraw]
  simp [AuthService.ValidateToken, AuthService.parseToken, hdec, hexp,
    ContextWithUserID]

theorem C9_validate_ignores_store_witness :
    AuthService.ValidateToken { users := [], jwtSecret := "sec" } 100
        (Token.signed
          { userID := 1, email := "a@b.c", isAdmin := false,
            expiresAt := 86400, issuedAt := 0 } "sec" SigningMethod.hmac) =
      AuthService.ValidateToken
        { users := [{ id := 1, email := "a@b.c", password := "h",
                      name := "A", isAdmin := false }], jwtSecret := "sec" }
        100
        (Token.signed
          { userID := 1, email := "a@b.c", isAdmin := false,
            expiresAt := 86400, issuedAt := 0 } "sec" SigningMethod.hmac)
    ∧ AuthHandler.AuthMiddlewareSvc
        (fun _ => Token.signed
          { userID := 1, email := "a@b.c", isAdmin := false,
            expiresAt := 86400, issuedAt := 0 } "sec" SigningMethod.hmac)
        { users := [], jwtSecret := "sec" } 100 "Bearer t" none =
      MwResult.proceed (some 1) :=
  ⟨(C9_validate_ignores_store []
      [{ id := 1, email := "a@b.c", password := "h", name := "A",
         isAdmin := false }] "sec" 100).1 _,
   (C9_validate_ignores_store []
      [{ id := 1, email := "a@b.c", password := "h", name := "A",
         isAdmin := false }] "sec" 100).2.2
      { userID := 1, email := "a@b.c", isAdmin := false,
        expiresAt := 86400, issuedAt := 0 } "t"
      (fun _ => Token.signed
        { userID := 1, email := "a@b.c", isAdmin := false,
          expiresAt := 86400, issuedAt := 0 } "sec" SigningMethod.hmac)
      "Bearer t" none (by decide) (by decide) rfl (by decide) (by decide)⟩

/-- Claim C2: when the `page` query parameter is unset or parses to a
    value ≤ 0, the effective page used by the service is 1; when
    `page_size` is unset the effective page size is 10 (the handler's
    default); and the slice of results is taken from the filtered, sorted
    sequence starting at offset `(page-1)*page_size`. -/
theorem C2_pagination_defaults (cat : Catalog) (q : MovieQuery) :
    ((q.page = "" ∨ ∃ k, goAtoi q.page = some k ∧ k ≤ 0) →
      effectivePage (MovieHandler.buildFilter q) = 1)
    ∧ (q.pageSize = "" →
      effectivePageSize (MovieHandler.buildFilter q) = 10)
    ∧ (∀ f : MovieFilter,
        (MovieService.GetMovies cat f).1 =
          ((orderBy (movieLE f.sortBy) (filteredMovies cat f)).drop
              ((effectivePage f - 1) * effectivePageSize f).toNat).take
            (effectivePageSize f).toNat) := by
  refine ⟨?_, ?_, fun f => rfl⟩
  · intro hpage
    rcases hpage with h | ⟨k, hk, hk0⟩
    · simp [MovieHandler.buildFilter, effectivePage, h]
    · by_cases h : q.page = ""
      · simp [MovieHandler.buildFilter, effectivePage, h]
      · have hk1 : ¬ k > 0 := by omega
        simp [MovieHandler.buildFilter, effectivePage, h, hk, hk1]
  · intro h
    simp [MovieHandler.buildFilter, effectivePageSize, h]

theorem C2_pagination_defaults_witness :
    effectivePage (MovieHandler.buildFilter { page := "-2" }) = 1
    ∧ effectivePageSize (MovieHandler.buildFilter { page := "-2" }) = 10
    ∧ (MovieService.GetMovies
        { movies := [{ id := 1, title := "a", description := "d",
                       releaseYear := 2000, duration := 100,
                       posterURL := "p", videoURL := "v",
                       categories := [] }] }
        { page := 2, pageSize := 1 }).1 =
      ((orderBy (movieLE "")
          (filteredMovies
            { movies := [{ id := 1, title := "a", description := "d",
                           releaseYear := 2000, duration := 100,
                           posterURL := "p", videoURL := "v",
                           categories := [] }] }
            { page := 2, pageSize := 1 })).drop
        (((2 : Int) - 1) * 1).toNat).take ((1 : Int)).toNat :=
  ⟨(C2_pagination_defaults { movies := [] } { page := "-2" }).1
      (Or.inr ⟨-2, by decide, by decide⟩),
   (C2_pagination_defaults { movies := [] } { page := "-2" }).2.1 rfl,
   (C2_pagination_defaults
      { movies := [{ id := 1, title := "a", description := "d",
                     releaseYear := 2000, duration := 100,
                     posterURL := "p", videoURL := "v",
                     categories := [] }] }
      { page := "-2" }).2.2 { page := 2, pageSize := 1 }⟩

/-- Claim C7: creating a movie whose title equals an existing movie's
    title fails with the conflict error and inserts nothing (no catalog is
    produced); updating a movie to a title held by a different movie (with
    a different id) fails with the conflict error and changes nothing; and
    updating a movie while keeping its own (unique) title succeeds. -/
theorem C7_title_uniqueness (cat : Catalog) (movie : Movie) :
    ((∃ m ∈ cat.movies, m.title = movie.title) →
      MovieService.CreateMovie cat movie =
        Except.error "movie already exists")
    ∧ ((∃ m ∈ cat.movies, m.title = movie.title ∧ m.id ≠ movie.id) →
      MovieService.UpdateMovie cat movie =
        Except.error "movie title already taken")
    ∧ ((∃ m ∈ cat.movies, m.id = movie.id ∧ m.title = movie.title) →
      (∀ m ∈ cat.movies, m.title = movie.title → m.id = movie.id) →
      ∃ cat2, MovieService.UpdateMovie cat movie = Except.ok cat2) := by
  refine ⟨?_, ?_, ?_⟩
  · intro hdup
    obtain ⟨m, hm, ht⟩ := hdup
    have hany : cat.movies.any (fun m2 => m2.title == movie.title) = true :=
      List.any_eq_true.mpr ⟨m, hm, by simp [ht]⟩
    simp [MovieService.CreateMovie, hany]
  · intro hdup
    obtain ⟨m, hm, ht, hid⟩ := hdup
    have hany : cat.movies.any
        (fun m2 => m2.title == movie.title && m2.id != movie.id) = true :=
      List.any_eq_true.mpr ⟨m, hm, by simp [ht, hid]⟩
    simp [MovieService.UpdateMovie, hany]
  · intro _ hown
    have hany : cat.movies.any
        (fun m2 => m2.title == movie.title && m2.id != movie.id) = false := by
      rw [List.any_eq_false]
      intro m hm
      simp only [Bool.and_eq_true, beq_iff_eq, bne_iff_ne, ne_eq,
        not_and, Decidable.not_not]
      intro ht
      exact hown m hm ht
    simp only [MovieService.UpdateMovie, hany]
    exact ⟨_, rfl⟩

theorem C7_title_uniqueness_witness :
    MovieService.CreateMovie
        { movies := [{ id := 1, title := "a", description := "d",
                       releaseYear := 2000, duration := 100,
                       posterURL := "p", videoURL := "v",
                       categories := [] },
                     { id := 2, title := "b", description := "d",
                       releaseYear := 2001, duration := 90,
                       posterURL := "p", videoURL := "v",
                       categories := [] }] }
        { id := 0, title := "a", description := "x", releaseYear := 2020,
          duration := 80, posterURL := "p", videoURL := "v",
          categories := [] } = Except.error "movie already exists"
    ∧ MovieService.UpdateMovie
        { movies := [{ id := 1, title := "a", description := "d",
                       releaseYear := 2000, duration := 100,
                       posterURL := "p", videoURL := "v",
                       categories := [] },
                     { id := 2, title := "b", description := "d",
                       releaseYear := 2001, duration := 90,
                       posterURL := "p", videoURL := "v",
                       categories := [] }] }
        { id := 2, title := "a", description := "x", releaseYear := 2020,
          duration := 80, posterURL := "p", videoURL := "v",
          categories := [] } = Except.error "movie title already taken"
    ∧ (∃ cat2, MovieService.UpdateMovie
        { movies := [{ id := 1, title := "a", description := "d",
                       releaseYear := 2000, duration := 100,
                       posterURL := "p", videoURL := "v",
                       categories := [] },
                     { id := 2, title := "b", description := "d",
                       releaseYear := 2001, duration := 90,
                       posterURL := "p", videoURL := "v",
                       categories := [] }] }
        { id := 2, title := "b", description := "x", releaseYear := 2020,
          duration := 80, posterURL := "p", videoURL := "v",
          categories := [] } = Except.ok cat2) := by
  refine ⟨?_, ?_, ?_⟩
  · exact (C7_title_uniqueness _ _).1
      ⟨{ id := 1, title := "a", description := "d", releaseYear := 2000,
         duration := 100, posterURL := "p", videoURL := "v",
         categories := [] }, by decide, rfl⟩
  · exact (C7_title_uniqueness _ _).2.1
      ⟨{ id := 1, title := "a", description := "d", releaseYear := 2000,
         duration := 100, posterURL := "p", videoURL := "v",
         categories := [] }, by decide, rfl, by decide⟩
  · exact (C7_title_uniqueness _ _).2.2
      ⟨{ id := 2, title := "b", description := "d", releaseYear := 2001,
         duration := 90, posterURL := "p", videoURL := "v",
         categories := [] }, by decide, rfl, rfl⟩
      (by decide)

/-- Claim C10: a present but non-numeric or non-positive `page` query
    parameter leaves the handler's filter page at 0, the service then
    clamps its own copy to an effective page of 1, while the response's
    `page` field reports the handler's 0; likewise a present but
    non-numeric or non-positive `page_size` leaves the filter at 0 and the
    service applies its own default of 20 rather than the handler's 10. -/
theorem C10_invalid_page_params (cat : Catalog) (q : MovieQuery) :
    (q.page ≠ "" →
      (goAtoi q.page = none ∨ ∃ k, goAtoi q.page = some k ∧ k ≤ 0) →
      (MovieHandler.buildFilter q).page = 0
      ∧ effectivePage (MovieHandler.buildFilter q) = 1
      ∧ (MovieHandler.GetMovies cat q).page = 0)
    ∧ (q.pageSize ≠ "" →
      (goAtoi q.pageSize = none ∨ ∃ k, goAtoi q.pageSize = some k ∧ k ≤ 0) →
      (MovieHandler.buildFilter q).pageSize = 0
      ∧ effectivePageSize (MovieHandler.buildFilter q) = 20) := by
  constructor
  · intro hne hbad
    have hzero : (MovieHandler.buildFilter q).page = 0 := by
      rcases hbad with h | ⟨k, hk, hk0⟩
      · simp [MovieHandler.buildFilter, hne, h]
      · have hk1 : ¬ k > 0 := by omega
        simp [MovieHandler.buildFilter, hne, hk, hk1]
    refine ⟨hzero, ?_, ?_⟩
    · simp [effectivePage, hzero]
    · show (MovieHandler.buildFilter q).page = 0
      exact hzero
  · intro hne hbad
    have hzero : (MovieHandler.buildFilter q).pageSize = 0 := by
      rcases hbad with h | ⟨k, hk, hk0⟩
      · simp [MovieHandler.buildFilter, hne, h]
      · have hk1 : ¬ k > 0 := by omega
        simp [MovieHandler.buildFilter, hne, hk, hk1]
    exact ⟨hzero, by simp [effectivePageSize, hzero]⟩

theorem C10_invalid_page_params_witness :
    (MovieHandler.buildFilter { page := "abc", pageSize := "-1" }).page = 0
    ∧ effectivePage
        (MovieHandler.buildFilter { page := "abc", pageSize := "-1" }) = 1
    ∧ (MovieHandler.GetMovies
        { movies := [{ id := 1, title := "a", description := "d",
                       releaseYear := 2000, duration := 100,
                       posterURL := "p", videoURL := "v",
                       categories := [] }] }
        { page := "abc", pageSize := "-1" }).page = 0
    ∧ (MovieHandler.buildFilter
        { page := "abc", pageSize := "-1" }).pageSize = 0
    ∧ effectivePageSize
        (MovieHandler.buildFilter { page := "abc", pageSize := "-1" }) = 20 := by
  have h := C10_invalid_page_params
    { movies := [{ id := 1, title := "a", description := "d",
                   releaseYear := 2000, duration := 100,
                   posterURL := "p", videoURL := "v",
                   categories := [] }] }
    { page := "abc", pageSize := "-1" }
  have h1 := h.1 (by decide) (Or.inl (by decide))
  have h2 := h.2 (by decide) (Or.inr ⟨-1, by decide, by decide⟩)
  exact ⟨h1.1, h1.2.1, h1.2.2, h2.1, h2.2⟩

/-- Length of the returned page: `min P (N - (p-1)*P)` for a positive
    requested page `p` and page size `P`. -/
theorem GetMovies_fst_length (cat : Catalog) (f : MovieFilter) (P p : Nat)
    (hP : f.pageSize = (P : Int)) (hP0 : 0 < P)
    (hp : f.page = (p : Int)) (hp0 : 0 < p) :
    (MovieService.GetMovies cat f).1.length =
      min P ((filteredMovies cat f).length - (p - 1) * P) := by
  have hep : effectivePage f = (p : Int) := by
    unfold effectivePage
    rw [hp, if_neg (by omega)]
  have heps : effectivePageSize f = (P : Int) := by
    unfold effectivePageSize
    rw [hP, if_neg (by omega)]
  have hoff : ((effectivePage f - 1) * effectivePageSize f).toNat =
      (p - 1) * P := by
    rw [hep, heps]
    have h1 : ((p : Int) - 1) = ((p - 1 : Nat) : Int) := by omega
    rw [h1, ← Nat.cast_mul, Int.toNat_natCast]
  have hdef : (MovieService.GetMovies cat f).1 =
      ((orderBy (movieLE f.sortBy) (filteredMovies cat f)).drop
          ((effectivePage f - 1) * effectivePageSize f).toNat).take
        (effectivePageSize f).toNat := rfl
  rw [hdef, List.length_take, List.length_drop, length_orderBy, hoff, heps,
    Int.toNat_natCast]

/-- Claim C8: the `total` returned by the catalog query is the size `N` of
    the filtered set, computed before `LIMIT`/`OFFSET`, and does not
    depend on the requested page or page size; consequently, for page size
    `P`, exactly the pages `1 .. ceil(N/P)` are non-empty, and the last
    page `ceil(N/P)` holds `N mod P` entries (a full `P` when `P` divides
    `N`). -/
theorem C8_total_before_pagination (cat : Catalog) (f : MovieFilter)
    (P p : Nat) (hP : f.pageSize = (P : Int)) (hP0 : 0 < P)
    (hp : f.page = (p : Int)) (hp0 : 0 < p) :
    (MovieService.GetMovies cat f).2 = ((filteredMovies cat f).length : Int)
    ∧ (∀ page2 pageSize2 : Int,
        (MovieService.GetMovies cat
          { f with page := page2, pageSize := pageSize2 }).2 =
          (MovieService.GetMovies cat f).2)
    ∧ ((MovieService.GetMovies cat f).1 ≠ [] ↔
        p ≤ ((filteredMovies cat f).length + P - 1) / P)
    ∧ (p = ((filteredMovies cat f).length + P - 1) / P →
        (MovieService.GetMovies cat f).1.length =
          if (filteredMovies cat f).length % P = 0 then P
          else (filteredMovies cat f).length % P) := by
  have hlen := GetMovies_fst_length cat f P p hP hP0 hp hp0
  refine ⟨rfl, fun page2 pageSize2 => rfl, ?_, ?_⟩
  · rw [← List.length_pos, hlen, page_le_ceil_iff _ _ _ hP0 hp0, lt_min_iff]
    generalize (filteredMovies cat f).length = N
    generalize (p - 1) * P = A
    omega
  · intro hpe
    rw [hlen]
    have hlo : (p - 1) * P < (filteredMovies cat f).length := by
      rw [← page_le_ceil_iff _ _ _ hP0 hp0]
      omega
    have hhi : (filteredMovies cat f).length ≤ p * P := by
      have h4 : ((filteredMovies cat f).length + P - 1) / P < p + 1 := by
        omega
      have h2 := (Nat.div_lt_iff_lt_mul hP0).mp h4
      rw [Nat.succ_mul] at h2
      generalize p * P = B at h2 ⊢
      omega
    exact lastPageLen _ _ _ hP0 hp0 hlo hhi

theorem C8_total_before_pagination_witness :
    (MovieService.GetMovies
      { movies := [{ id := 1, title := "a", description := "d",
                     releaseYear := 2000, duration := 100, posterURL := "p",
                     videoURL := "v", categories := [] },
                   { id := 2, title := "b", description := "d",
                     releaseYear := 2001, duration := 100, posterURL := "p",
                     videoURL := "v", categories := [] },
                   { id := 3, title := "c", description := "d",
                     releaseYear := 2002, duration := 100, posterURL := "p",
                     videoURL := "v", categories := [] },
                   { id := 4, title := "e", description := "d",
                     releaseYear := 2003, duration := 100, posterURL := "p",
                     videoURL := "v", categories := [] },
                   { id := 5, title := "f", description := "d",
                     releaseYear := 2004, duration := 100, posterURL := "p",
                     videoURL := "v", categories := [] }] }
      { page := 3, pageSize := 2 }).2 = 5
    ∧ (MovieService.GetMovies
      { movies := [{ id := 1, title := "a", description := "d",
                     releaseYear := 2000, duration := 100, posterURL := "p",
                     videoURL := "v", categories := [] },
                   { id := 2, title := "b", description := "d",
                     releaseYear := 2001, duration := 100, posterURL := "p",
                     videoURL := "v", categories := [] },
                   { id := 3, title := "c", description := "d",
                     releaseYear := 2002, duration := 100, posterURL := "p",
                     videoURL := "v", categories := [] },
                   { id := 4, title := "e", description := "d",
                     releaseYear := 2003, duration := 100, posterURL := "p",
                     videoURL := "v", categories := [] },
                   { id := 5, title := "f", description := "d",
                     releaseYear := 2004, duration := 100, posterURL := "p",
                     videoURL := "v", categories := [] }] }
      { page := 3, pageSize := 2 }).1 ≠ []
    ∧ (MovieService.GetMovies
      { movies := [{ id := 1, title := "a", description := "d",
                     releaseYear := 2000, duration := 100, posterURL := "p",
                     videoURL := "v", categories := [] },
                   { id := 2, title := "b", description := "d",
                     releaseYear := 2001, duration := 100, posterURL := "p",
                     videoURL := "v", categories := [] },
                   { id := 3, title := "c", description := "d",
                     releaseYear := 2002, duration := 100, posterURL := "p",
                     videoURL := "v", categories := [] },
                   { id := 4, title := "e", description := "d",
                     releaseYear := 2003, duration := 100, posterURL := "p",
                     videoURL := "v", categories := [] },
                   { id := 5, title := "f", description := "d",
                     releaseYear := 2004, duration := 100, posterURL := "p",
                     videoURL := "v", categories := [] }] }
      { page := 3, pageSize := 2 }).1.length = 1 := by
  have h := C8_total_before_pagination
    { movies := [{ id := 1, title := "a", description := "d",
                   releaseYear := 2000, duration := 100, posterURL := "p",
                   videoURL := "v", categories := [] },
                 { id := 2, title := "b", description := "d",
                   releaseYear := 2001, duration := 100, posterURL := "p",
                   videoURL := "v", categories := [] },
                 { id := 3, title := "c", description := "d",
                   releaseYear := 2002, duration := 100, posterURL := "p",
                   videoURL := "v", categories := [] },
                 { id := 4, title := "e", description := "d",
                   releaseYear := 2003, duration := 100, posterURL := "p",
                   videoURL := "v", categories := [] },
                 { id := 5, title := "f", description := "d",
                   releaseYear := 2004, duration := 100, posterURL := "p",
                   videoURL := "v", categories := [] }] }
    { page := 3, pageSize := 2 } 2 3 rfl (by decide) rfl (by decide)
  refine ⟨?_, ?_, ?_⟩
  · rw [h.1]; decide
  · exact h.2.2.1.mpr (by decide)
  · rw [h.2.2.2 (by decide)]; decide

end Ndn
